import Mathlib

/-!
Shallow embedding of the data pipeline of `for_streamlit.py`: a Streamlit
dashboard that loads two census tables (population density by geography and
population by age/sex), preprocesses them (column rename, numeric age
derivation, age banding via `pd.cut`, `melt` to long form, sorting), filters
and aggregates them according to UI selections, and builds Plotly chart
specifications.  Dataframes are modelled as lists of records; pandas
operations become list functions; the fallible `astype(int)` step returns an
`Option`.
-/

namespace ForStreamlit

/-! ### Ordering on strings

pandas `sort_values` on string columns compares strings by code points, as
Python does.  Lean's built-in `String` order does not reduce in the kernel,
so the code-point lexicographic order is defined directly on the character
lists underlying the strings. -/

/-- Strict code-point lexicographic order on lists of characters. -/
def charListLt : List Char → List Char → Bool
  | _, [] => false
  | [], _ :: _ => true
  | a :: as, b :: bs => decide (a < b) || (decide (a = b) && charListLt as bs)

/-- Strict code-point lexicographic order on strings. -/
def strLtb (a b : String) : Bool := charListLt a.data b.data

/-- Non-strict code-point lexicographic order on strings. -/
def strLeb (a b : String) : Bool := strLtb a b || decide (a = b)

/-- Lexicographic combination of a strict order on the first component with a
non-strict order on the second; used to build the multi-column sort keys of
`sort_values(by=[...])`. -/
def lexb {α β : Type} [DecidableEq α] (ltA : α → α → Bool) (leB : β → β → Bool)
    (x y : α × β) : Bool :=
  ltA x.1 y.1 || (decide (x.1 = y.1) && leB x.2 y.2)

/-! ### Parsing helpers -/

/-- Value of a non-empty all-digit character list, `none` otherwise. -/
def digitsVal (cs : List Char) : Option Nat :=
  if cs ≠ [] ∧ cs.all Char.isDigit then
    some (cs.foldl (fun n c => 10 * n + (c.toNat - 48)) 0)
  else none

/-- Strip leading and trailing whitespace, as Python's `int` does. -/
def trimChars (cs : List Char) : List Char :=
  ((cs.dropWhile Char.isWhitespace).reverse.dropWhile Char.isWhitespace).reverse

/-- Python's `int(str)` conversion, as applied by `astype(int)` to a string
column: optional surrounding whitespace, optional sign, a non-empty digit
run; anything else raises (modelled as `none`). -/
def pyInt (s : String) : Option Int :=
  match trimChars s.data with
  | [] => none
  | c :: cs =>
    if c = '-' then (digitsVal cs).map (fun n => -(n : Int))
    else if c = '+' then (digitsVal cs).map (fun n => (n : Int))
    else (digitsVal (c :: cs)).map (fun n => (n : Int))

/-- `df['age'].replace('90+', 90).astype(int)` applied to one value: the
literal sentinel `"90+"` maps to `90`, every other string goes through
integer parsing. -/
def ageNumericOf (s : String) : Option Int :=
  if s = "90+" then some 90 else pyInt s

/-- `pd.cut(age_numeric, bins=[-1,17,24,39,59,74,inf], labels=..., right=True)`
applied to one value: right-closed buckets, values at or below the leftmost
edge `-1` fall outside every bucket (`NaN`, modelled as `none`). -/
def ageBandOf (a : Int) : Option String :=
  if a ≤ -1 then none
  else if a ≤ 17 then some "0-17"
  else if a ≤ 24 then some "18-24"
  else if a ≤ 39 then some "25-39"
  else if a ≤ 59 then some "40-59"
  else if a ≤ 74 then some "60-74"
  else some "75+"

/-- `Series.str.extract(r'(\d+)')` applied to one value: the first maximal
digit run, if any. -/
def firstDigitRun : List Char → Option (List Char)
  | [] => none
  | c :: cs => if c.isDigit then some (c :: cs.takeWhile Char.isDigit) else firstDigitRun cs

/-- `str.extract(r'(\d+)').astype(int)` applied to one value. -/
def extractYear (s : String) : Option Nat :=
  (firstDigitRun s.data).map (fun ds => ds.foldl (fun n c => 10 * n + (c.toNat - 48)) 0)

/-! ### Data model -/

/-- One row of the renamed density table (`preprocess_density_data` output).
The float-valued columns carry exact rationals; no arithmetic is ever
performed on them, they are only filtered and passed to the chart. -/
structure DensityRow where
  name : String
  code : String
  geography : String
  area_sq_km : Rat
  population_2011 : Int
  population_2022 : Int
  density_2011 : Rat
  density_2022 : Rat
deriving DecidableEq

/-- One row of the raw age/gender table `MYEB1_Table9.csv`. -/
structure AgeGenderRawRow where
  name : String
  sex : String
  age : String
  population_2011 : Int
  population_2022 : Int
deriving DecidableEq

/-- One row of `df_age_gender_detail`: the raw row extended with the derived
`age_numeric` and `age_band` columns. -/
structure AgeGenderDetailRow where
  name : String
  sex : String
  age : String
  age_numeric : Int
  age_band : Option String
  population_2011 : Int
  population_2022 : Int
deriving DecidableEq

/-- One row of `df_age_gender_melted`: long form, one row per (detail row,
year), with `Population` unpivoted from the two wide year columns. -/
structure AgeGenderMeltedRow where
  name : String
  sex : String
  age : String
  age_numeric : Int
  age_band : Option String
  Population : Int
  Year : Nat
deriving DecidableEq

/-! ### Age/gender preprocessing -/

/-- Column-wise fallible map: `astype(int)` fails on the whole column as soon
as one value fails to parse. -/
def mapO {α β : Type} (f : α → Option β) : List α → Option (List β)
  | [] => some []
  | a :: l =>
    match f a, mapO f l with
    | some b, some bs => some (b :: bs)
    | _, _ => none

/-- Derivation of one detail row: numeric age (fallible) and age band. -/
def mkDetailRow (r : AgeGenderRawRow) : Option AgeGenderDetailRow :=
  (ageNumericOf r.age).map (fun a =>
    { name := r.name, sex := r.sex, age := r.age,
      age_numeric := a, age_band := ageBandOf a,
      population_2011 := r.population_2011, population_2022 := r.population_2022 })

/-- One long-form row produced by `melt` for the given value column. -/
def meltRow (d : AgeGenderDetailRow) (col : String) (v : Int) : AgeGenderMeltedRow :=
  { name := d.name, sex := d.sex, age := d.age,
    age_numeric := d.age_numeric, age_band := d.age_band,
    Population := v, Year := (extractYear col).getD 0 }

/-- `melt(id_vars=..., value_vars=['population_2011','population_2022'])`:
all 2011 rows (in detail order) followed by all 2022 rows. -/
def melt_long (detail : List AgeGenderDetailRow) : List AgeGenderMeltedRow :=
  detail.map (fun d => meltRow d "population_2011" d.population_2011)
    ++ detail.map (fun d => meltRow d "population_2022" d.population_2022)

/-- The four-column sort key of
`sort_values(by=['name', 'Year', 'sex', 'age_numeric'])`. -/
def meltedKey (r : AgeGenderMeltedRow) : String × Nat × String × Int :=
  (r.name, r.Year, r.sex, r.age_numeric)

/-- Strict order on naturals as a `Bool`. -/
def natLtb (a b : Nat) : Bool := decide (a < b)

/-- Non-strict order on integers as a `Bool`. -/
def intLeb (a b : Int) : Bool := decide (a ≤ b)

/-- Lexicographic `≤` on the four-column sort key. -/
def meltKeyLEb : String × Nat × String × Int → String × Nat × String × Int → Bool :=
  lexb strLtb (lexb natLtb (lexb strLtb intLeb))

/-- Row order used to sort the melted table. -/
def MeltLE (a b : AgeGenderMeltedRow) : Prop := meltKeyLEb (meltedKey a) (meltedKey b) = true

instance : DecidableRel MeltLE := fun a b => instDecidableEqBool _ _

/-- `preprocess_age_gender_data`: derive `age_numeric` (failing on any
unparseable age) and `age_band`, melt the two population columns into long
form, extract `Year`, and sort by `(name, Year, sex, age_numeric)`
(a multi-key `sort_values`, which pandas performs with a stable lexsort). -/
def preprocess_age_gender_data (raw : List AgeGenderRawRow) :
    Option (List AgeGenderDetailRow × List AgeGenderMeltedRow) :=
  (mapO mkDetailRow raw).map (fun detail =>
    (detail, List.insertionSort MeltLE (melt_long detail)))

/-! ### Density section -/

/-- Row order of `sort_values('name')` on the density table. -/
def DensityLE (a b : DensityRow) : Prop := strLeb a.name b.name = true

instance : DecidableRel DensityLE := fun a b => instDecidableEqBool _ _

/-- `df_density[df_density['name'].isin(selected)].sort_values('name')`. -/
def filtered_df_density (df_density : List DensityRow) (selected : List String) :
    List DensityRow :=
  List.insertionSort DensityLE (df_density.filter (fun r => decide (r.name ∈ selected)))

/-- A Plotly figure of the density section: either the placeholder built by
`create_empty_figure` (axes hidden, only a title message) or the real
two-trace bar chart. -/
inductive DensityFig where
  | empty (title : String)
  | chart (x2011 : List String) (y2011 : List Rat) (x2022 : List String) (y2022 : List Rat)
      (categoryarray : List String)
deriving DecidableEq

/-- `create_empty_figure`: a figure with no traces carrying a message title. -/
def create_empty_figure (title_text : String) : DensityFig := DensityFig.empty title_text

/-- Whether a density-section figure is the empty placeholder. -/
def isEmptyFig : DensityFig → Bool
  | DensityFig.empty _ => true
  | DensityFig.chart _ _ _ _ _ => false

/-- The density section: empty selection renders the placeholder, otherwise
the two density bar traces are built from the filtered rows, with the
category axis ordered by the sorted selection. -/
def density_section (df_density : List DensityRow) (selected : List String) : DensityFig :=
  if selected.isEmpty then
    create_empty_figure "Please select at least one location for density comparison."
  else
    let f := filtered_df_density df_density selected
    DensityFig.chart (f.map (fun r => r.name)) (f.map (fun r => r.density_2011))
      (f.map (fun r => r.name)) (f.map (fun r => r.density_2022))
      (List.insertionSort (fun a b : String => strLeb a b = true) selected)

/-! ### Gender comparison section -/

/-- Filter of the melted table by the gender-comparison selections: rows of
the chosen year whose name is among the chosen locations, further restricted
to the chosen age band unless the band selector is `"All Ages"`. -/
def filtered_df_gender_melted (melted : List AgeGenderMeltedRow) (year : Nat)
    (locs : List String) (band : String) : List AgeGenderMeltedRow :=
  let f := melted.filter (fun r => decide (r.Year = year ∧ r.name ∈ locs))
  if band ≠ "All Ages" then f.filter (fun r => decide (r.age_band = some band)) else f

/-- One row of `grouped_df_gender`. -/
structure GroupedRow where
  name : String
  sex : String
  Population : Int
deriving DecidableEq

/-- Lexicographic `≤` on the `(name, sex)` group key. -/
def groupKeyLEb : String × String → String × String → Bool := lexb strLtb strLeb

/-- Key order as a relation on pairs. -/
def GroupKeyLE (a b : String × String) : Prop := groupKeyLEb a b = true

instance : DecidableRel GroupKeyLE := fun a b => instDecidableEqBool _ _

/-- Row order of `sort_values(by=['name', 'sex'])` on the grouped table. -/
def GroupedLE (a b : GroupedRow) : Prop := groupKeyLEb (a.name, a.sex) (b.name, b.sex) = true

/-- `groupby(['name','sex'])['Population'].sum().reset_index()` followed by
`sort_values(by=['name','sex'])`: one row per distinct `(name, sex)` key, in
ascending key order, carrying the sum of `Population` over that group. -/
def grouped_df_gender (rows : List AgeGenderMeltedRow) : List GroupedRow :=
  (List.insertionSort GroupKeyLE ((rows.map (fun r => (r.name, r.sex))).dedup)).map
    (fun k =>
      { name := k.1, sex := k.2,
        Population :=
          ((rows.filter (fun r => decide (r.name = k.1 ∧ r.sex = k.2))).map
            (fun r => r.Population)).sum })

/-- Fixed palette colors used by the gender-comparison traces. -/
def COLOR_MALE : String := "#0072B2"

/-- Fixed palette color of the female trace. -/
def COLOR_FEMALE : String := "#E69F00"

/-- One bar trace of the gender-comparison figure. -/
structure GenderTrace where
  x : List String
  y : List Int
  name : String
  marker_color : String
deriving DecidableEq

/-- `fig_gender_comp`: the female trace is built from exactly the grouped
rows with sex `'F'`, the male trace from exactly those with sex `'M'`. -/
def fig_gender_comp (grouped : List GroupedRow) : List GenderTrace :=
  [{ x := (grouped.filter (fun g => decide (g.sex = "F"))).map (fun g => g.name),
     y := (grouped.filter (fun g => decide (g.sex = "F"))).map (fun g => g.Population),
     name := "Female", marker_color := COLOR_FEMALE },
   { x := (grouped.filter (fun g => decide (g.sex = "M"))).map (fun g => g.name),
     y := (grouped.filter (fun g => decide (g.sex = "M"))).map (fun g => g.Population),
     name := "Male", marker_color := COLOR_MALE }]

/-- The six band labels, in order (`age_bands_raw` in the source). -/
def age_bands_raw : List String := ["0-17", "18-24", "25-39", "40-59", "60-74", "75+"]

/-- The group keys used by `grouped_df_gender`, in groupby order. -/
def groupSortedKeys (rows : List AgeGenderMeltedRow) : List (String × String) :=
  List.insertionSort GroupKeyLE ((rows.map (fun r => (r.name, r.sex))).dedup)

/-! ### Sample data for concrete witnesses -/

/-- A small concrete raw age/gender table. -/
def sampleRaw : List AgeGenderRawRow :=
  [{ name := "SCOTLAND", sex := "F", age := "17", population_2011 := 10, population_2022 := 11 },
   { name := "SCOTLAND", sex := "F", age := "90+", population_2011 := 3, population_2022 := 4 },
   { name := "SCOTLAND", sex := "M", age := "18", population_2011 := 20, population_2022 := 21 },
   { name := "WALES", sex := "F", age := "0", population_2011 := 5, population_2022 := 6 }]

/-- Preprocessed tables of the sample raw table. -/
def samplePre : List AgeGenderDetailRow × List AgeGenderMeltedRow :=
  (preprocess_age_gender_data sampleRaw).getD ([], [])

/-- A detail row of the sample table. -/
def sampleD : AgeGenderDetailRow :=
  { name := "SCOTLAND", sex := "F", age := "17", age_numeric := 17,
    age_band := some "0-17", population_2011 := 10, population_2022 := 11 }

/-- A small concrete renamed density table (deliberately not name-sorted). -/
def sampleDensity : List DensityRow :=
  [{ name := "WALES", code := "W92000004", geography := "Country", area_sq_km := 20779,
     population_2011 := 3063456, population_2022 := 3131640,
     density_2011 := 147, density_2022 := 151 },
   { name := "ENGLAND", code := "E92000001", geography := "Country", area_sq_km := 130310,
     population_2011 := 53107000, population_2022 := 57106000,
     density_2011 := 408, density_2022 := 438 }]

/-- A raw row with a negative age string: Python's `int` parses it without
raising, so preprocessing succeeds on it. -/
def negAgeRow : AgeGenderRawRow :=
  { name := "ENGLAND", sex := "F", age := "-3", population_2011 := 5, population_2022 := 6 }

/-! ### Properties of the orders -/

lemma charListLt_irrefl : ∀ cs, charListLt cs cs = false
  | [] => rfl
  | c :: cs => by simp [charListLt, charListLt_irrefl cs]

lemma charListLt_trans :
    ∀ as bs cs, charListLt as bs = true → charListLt bs cs = true →
      charListLt as cs = true := by
  intro as
  induction as with
  | nil =>
    intro bs cs h1 h2
    cases bs with
    | nil => exact absurd h1 (by simp [charListLt])
    | cons b bs =>
      cases cs with
      | nil => exact absurd h2 (by simp [charListLt])
      | cons c cs => simp [charListLt]
  | cons a as ih =>
    intro bs cs h1 h2
    cases bs with
    | nil => exact absurd h1 (by simp [charListLt])
    | cons b bs =>
      cases cs with
      | nil => exact absurd h2 (by simp [charListLt])
      | cons c cs =>
        simp only [charListLt, Bool.or_eq_true, Bool.and_eq_true, decide_eq_true_eq] at *
        rcases h1 with h1 | ⟨rfl, h1⟩
        · rcases h2 with h2 | ⟨rfl, h2⟩
          · exact Or.inl (lt_trans h1 h2)
          · exact Or.inl h1
        · rcases h2 with h2 | ⟨rfl, h2⟩
          · exact Or.inl h2
          · exact Or.inr ⟨rfl, ih bs cs h1 h2⟩

lemma charListLt_trichotomy :
    ∀ as bs, charListLt as bs = true ∨ as = bs ∨ charListLt bs as = true := by
  intro as
  induction as with
  | nil =>
    intro bs
    cases bs with
    | nil => exact Or.inr (Or.inl rfl)
    | cons b bs => exact Or.inl (by simp [charListLt])
  | cons a as ih =>
    intro bs
    cases bs with
    | nil => exact Or.inr (Or.inr (by simp [charListLt]))
    | cons b bs =>
      rcases lt_trichotomy a b with h | rfl | h
      · exact Or.inl (by simp [charListLt, h])
      · rcases ih bs with h | rfl | h
        · exact Or.inl (by simp [charListLt, h])
        · exact Or.inr (Or.inl rfl)
        · exact Or.inr (Or.inr (by simp [charListLt, h]))
      · exact Or.inr (Or.inr (by simp [charListLt, h]))

lemma string_data_inj {a b : String} (h : a.data = b.data) : a = b := by
  cases a; cases b; cases h; rfl

lemma strLtb_irrefl (a : String) : strLtb a a = false := charListLt_irrefl a.data

lemma strLtb_trans {a b c : String} (h1 : strLtb a b = true) (h2 : strLtb b c = true) :
    strLtb a c = true := charListLt_trans a.data b.data c.data h1 h2

lemma strLtb_trichotomy (a b : String) :
    strLtb a b = true ∨ a = b ∨ strLtb b a = true := by
  rcases charListLt_trichotomy a.data b.data with h | h | h
  · exact Or.inl h
  · exact Or.inr (Or.inl (string_data_inj h))
  · exact Or.inr (Or.inr h)

lemma strLeb_refl (a : String) : strLeb a a = true := by simp [strLeb]

lemma strLeb_total (a b : String) : strLeb a b = true ∨ strLeb b a = true := by
  rcases strLtb_trichotomy a b with h | rfl | h
  · exact Or.inl (by simp [strLeb, h])
  · exact Or.inl (strLeb_refl a)
  · exact Or.inr (by simp [strLeb, h])

lemma strLeb_trans {a b c : String} (h1 : strLeb a b = true) (h2 : strLeb b c = true) :
    strLeb a c = true := by
  simp only [strLeb, Bool.or_eq_true, decide_eq_true_eq] at *
  rcases h1 with h1 | rfl
  · rcases h2 with h2 | rfl
    · exact Or.inl (strLtb_trans h1 h2)
    · exact Or.inl h1
  · exact h2

lemma lexb_refl {α β : Type} [DecidableEq α] (ltA : α → α → Bool) (leB : β → β → Bool)
    (hB : ∀ y, leB y y = true) (x : α × β) : lexb ltA leB x x = true := by
  simp [lexb, hB]

lemma lexb_total {α β : Type} [DecidableEq α] (ltA : α → α → Bool) (leB : β → β → Bool)
    (hA : ∀ a b, ltA a b = true ∨ a = b ∨ ltA b a = true)
    (hB : ∀ x y, leB x y = true ∨ leB y x = true) (x y : α × β) :
    lexb ltA leB x y = true ∨ lexb ltA leB y x = true := by
  rcases hA x.1 y.1 with h | h | h
  · exact Or.inl (by simp [lexb, h])
  · rcases hB x.2 y.2 with h2 | h2
    · exact Or.inl (by simp [lexb, h, h2])
    · exact Or.inr (by simp [lexb, h, h2])
  · exact Or.inr (by simp [lexb, h])

lemma lexb_trans {α β : Type} [DecidableEq α] (ltA : α → α → Bool) (leB : β → β → Bool)
    (hAt : ∀ a b c, ltA a b = true → ltA b c = true → ltA a c = true)
    (hB : ∀ x y z, leB x y = true → leB y z = true → leB x z = true) {x y z : α × β}
    (h1 : lexb ltA leB x y = true) (h2 : lexb ltA leB y z = true) :
    lexb ltA leB x z = true := by
  simp only [lexb, Bool.or_eq_true, Bool.and_eq_true, decide_eq_true_eq] at *
  rcases h1 with h1 | ⟨e1, h1⟩
  · rcases h2 with h2 | ⟨e2, h2⟩
    · exact Or.inl (hAt _ _ _ h1 h2)
    · exact Or.inl (e2 ▸ h1)
  · rcases h2 with h2 | ⟨e2, h2⟩
    · exact Or.inl (e1 ▸ h2)
    · exact Or.inr ⟨e1.trans e2, hB _ _ _ h1 h2⟩

lemma natLtb_trichotomy (a b : Nat) : natLtb a b = true ∨ a = b ∨ natLtb b a = true := by
  simpa [natLtb] using Nat.lt_trichotomy a b

lemma natLtb_trans {a b c : Nat} (h1 : natLtb a b = true) (h2 : natLtb b c = true) :
    natLtb a c = true := by
  simp only [natLtb, decide_eq_true_eq] at *
  omega

lemma intLeb_refl (a : Int) : intLeb a a = true := by simp [intLeb]

lemma intLeb_total (a b : Int) : intLeb a b = true ∨ intLeb b a = true := by
  simpa [intLeb] using Int.le_total a b

lemma intLeb_trans {a b c : Int} (h1 : intLeb a b = true) (h2 : intLeb b c = true) :
    intLeb a c = true := by
  simp only [intLeb, decide_eq_true_eq] at *
  omega

lemma meltKeyLEb_refl (k : String × Nat × String × Int) : meltKeyLEb k k = true := by
  unfold meltKeyLEb
  refine lexb_refl strLtb _ (fun y2 => ?_) k
  refine lexb_refl natLtb _ (fun y3 => ?_) y2
  exact lexb_refl strLtb intLeb intLeb_refl y3

instance : IsTotal AgeGenderMeltedRow MeltLE := by
  constructor
  intro a b
  unfold MeltLE meltKeyLEb
  exact lexb_total strLtb (lexb natLtb (lexb strLtb intLeb)) strLtb_trichotomy
    (fun x y =>
      lexb_total natLtb (lexb strLtb intLeb) natLtb_trichotomy
        (fun x y =>
          lexb_total strLtb intLeb strLtb_trichotomy intLeb_total x y)
        x y)
    (meltedKey a) (meltedKey b)

instance : IsTrans AgeGenderMeltedRow MeltLE := by
  constructor
  intro a b c h1 h2
  unfold MeltLE meltKeyLEb at h1 h2 ⊢
  exact lexb_trans strLtb (lexb natLtb (lexb strLtb intLeb))
    (fun a b c hx hy => strLtb_trans hx hy)
    (fun x y z hx hy =>
      lexb_trans natLtb (lexb strLtb intLeb)
        (fun a b c hu hv => natLtb_trans hu hv)
        (fun u v w hu hv =>
          lexb_trans strLtb intLeb
            (fun p q r2 hp hq => strLtb_trans hp hq)
            (fun p q r2 hp hq => intLeb_trans hp hq)
            hu hv)
        hx hy)
    h1 h2

lemma meltLE_of_key_eq {a b : AgeGenderMeltedRow} (h : meltedKey a = meltedKey b) :
    MeltLE a b := by
  unfold MeltLE
  rw [h]
  exact meltKeyLEb_refl _

instance : IsTotal DensityRow DensityLE := by
  constructor
  intro a b
  exact strLeb_total a.name b.name

instance : IsTrans DensityRow DensityLE := by
  constructor
  intro a b c h1 h2
  exact strLeb_trans h1 h2

instance : IsTotal (String × String) GroupKeyLE := by
  constructor
  intro a b
  unfold GroupKeyLE groupKeyLEb
  exact lexb_total strLtb strLeb strLtb_trichotomy strLeb_total a b

instance : IsTrans (String × String) GroupKeyLE := by
  constructor
  intro a b c h1 h2
  unfold GroupKeyLE groupKeyLEb at *
  exact lexb_trans strLtb strLeb (fun a b c h1 h2 => strLtb_trans h1 h2)
    (fun x y z h1 h2 => strLeb_trans h1 h2) h1 h2

/-! ### Generic list lemmas: column-wise parsing, stable sorting, grouping -/

lemma mapO_some_forall₂ {α β : Type} {f : α → Option β} :
    ∀ {l : List α} {l' : List β}, mapO f l = some l' →
      List.Forall₂ (fun a b => f a = some b) l l' := by
  intro l
  induction l with
  | nil =>
    intro l' h
    simp only [mapO, Option.some.injEq] at h
    subst h
    exact List.Forall₂.nil
  | cons a t ih =>
    intro l' h
    simp only [mapO] at h
    cases hfa : f a with
    | none => rw [hfa] at h; exact absurd h (by simp)
    | some b =>
      rw [hfa] at h
      cases hmt : mapO f t with
      | none => rw [hmt] at h; exact absurd h (by simp)
      | some bs =>
        rw [hmt] at h
        simp only [Option.some.injEq] at h
        subst h
        exact List.Forall₂.cons hfa (ih hmt)

lemma mapO_isSome_iff {α β : Type} {f : α → Option β} :
    ∀ {l : List α}, (mapO f l).isSome = true ↔ ∀ a ∈ l, (f a).isSome = true := by
  intro l
  induction l with
  | nil => simp [mapO]
  | cons a t ih =>
    simp only [mapO, List.mem_cons]
    cases hfa : f a with
    | none => simp [hfa]
    | some b =>
      cases hmt : mapO f t with
      | none =>
        rw [hmt] at ih
        simp only [Option.isSome_none, Bool.false_eq_true, false_iff] at ih
        push_neg at ih
        obtain ⟨x, hx, hfx⟩ := ih
        simp only [Option.isSome_some, Option.isSome_none]
        constructor
        · intro hfalse; exact absurd hfalse (by simp)
        · intro hall
          exact absurd (hall x (Or.inr hx)) (by simp [hfx])
      | some bs =>
        rw [hmt] at ih
        simp only [Option.isSome_some, true_iff] at ih
        simp only [Option.isSome_some, true_iff]
        intro x hx
        rcases hx with rfl | hx
        · simp [hfa]
        · exact ih x hx

lemma forall₂_mem_right {α β : Type} {R : α → β → Prop} :
    ∀ {l : List α} {l' : List β}, List.Forall₂ R l l' → ∀ {b}, b ∈ l' → ∃ a ∈ l, R a b := by
  intro l l' h
  induction h with
  | nil => intro b hb; exact absurd hb (by simp)
  | cons hR ht ih =>
    intro b hb
    rcases List.mem_cons.mp hb with rfl | hb
    · exact ⟨_, List.mem_cons_self _ _, hR⟩
    · obtain ⟨a, ha, hab⟩ := ih hb
      exact ⟨a, List.mem_cons_of_mem _ ha, hab⟩

lemma forall₂_map_eq {α β γ : Type} {R : α → β → Prop} {f : α → γ} {g : β → γ}
    (hfg : ∀ a b, R a b → f a = g b) :
    ∀ {l : List α} {l' : List β}, List.Forall₂ R l l' → l.map f = l'.map g := by
  intro l l' h
  induction h with
  | nil => rfl
  | cons hR ht ih => simp [hfg _ _ hR, ih]

lemma forall₂_sum_filter {α β : Type} {R : α → β → Prop} {p : α → Bool} {q : β → Bool}
    {f : α → Int} {g : β → Int}
    (hpt : ∀ a b, R a b → p a = q b) (hf : ∀ a b, R a b → f a = g b) :
    ∀ {l : List α} {l' : List β}, List.Forall₂ R l l' →
      ((l.filter p).map f).sum = ((l'.filter q).map g).sum := by
  intro l l' h
  induction h with
  | nil => rfl
  | cons hR ht ih =>
    rename_i a b l l'
    by_cases hp : p a
    · have hq : q b = true := (hpt a b hR) ▸ hp
      simp [List.filter_cons, hp, hq, hf a b hR, ih]
    · have hq : q b = false := by
        have := hpt a b hR
        rw [← this]
        exact Bool.not_eq_true _ ▸ (by simpa using hp)
      simp [List.filter_cons, hp, hq, ih]

lemma filter_orderedInsert {α : Type} (r : α → α → Prop) [DecidableRel r] (p : α → Bool)
    (x : α) :
    ∀ l : List α, (p x = true → ∀ y ∈ l, p y = true → r x y) →
      (List.orderedInsert r x l).filter p =
        if p x then x :: l.filter p else l.filter p := by
  intro l
  induction l with
  | nil =>
    intro _
    by_cases hp : p x <;> simp [List.orderedInsert, List.filter_cons, hp]
  | cons y t ih =>
    intro hx
    by_cases hr : r x y
    · rw [List.orderedInsert_of_le r _ hr]
      by_cases hp : p x <;> simp [List.filter_cons, hp]
    · simp only [List.orderedInsert, if_neg hr]
      have ihr := ih (fun hpx y2 hy2 hpy2 => hx hpx y2 (List.mem_cons_of_mem _ hy2) hpy2)
      by_cases hp : p x
      · have hpy : p y = false := by
          by_contra hpy2
          exact hr (hx hp y (List.mem_cons_self _ _) (by simpa using hpy2))
        simp [List.filter_cons, hpy, ihr, hp]
      · by_cases hpy : p y <;> simp [List.filter_cons, hpy, ihr, hp]

lemma filter_insertionSort {α : Type} (r : α → α → Prop) [DecidableRel r] (p : α → Bool)
    (hp : ∀ a b, p a = true → p b = true → r a b) :
    ∀ l : List α, (List.insertionSort r l).filter p = l.filter p := by
  intro l
  induction l with
  | nil => rfl
  | cons a t ih =>
    simp only [List.insertionSort]
    rw [filter_orderedInsert r p a _ (fun hpa y _ hpy => hp a y hpa hpy), ih]
    by_cases hpa : p a <;> simp [List.filter_cons, hpa]

lemma filter_key_eq_single {α κ : Type} [DecidableEq κ] (K : α → κ) :
    ∀ (l : List α), (l.map K).Nodup → ∀ {d}, d ∈ l →
      l.filter (fun x => decide (K x = K d)) = [d] := by
  intro l
  induction l with
  | nil => intro _ d hd; exact absurd hd (by simp)
  | cons a t ih =>
    intro hnd d hd
    simp only [List.map_cons, List.nodup_cons] at hnd
    obtain ⟨hKa, hndt⟩ := hnd
    rcases List.mem_cons.mp hd with rfl | hdt
    · rw [List.filter_cons, if_pos (by simp)]
      have ht : t.filter (fun x => decide (K x = K d)) = [] := by
        rw [List.filter_eq_nil_iff]
        intro x hx
        simp only [decide_eq_true_eq]
        intro hKx
        exact hKa (hKx ▸ List.mem_map_of_mem K hx)
      rw [ht]
    · have hne : K a ≠ K d := by
        intro he
        exact hKa (he ▸ List.mem_map_of_mem K hdt)
      rw [List.filter_cons, if_neg (by simpa using hne), ih hndt hdt]

lemma perm_pair_of_sorted {α : Type} {r : α → α → Prop} {l : List α} {a b : α}
    (hperm : l.Perm [a, b]) (hpair : l.Pairwise r) (hnr : ¬ r b a) : l = [a, b] := by
  have hlen : l.length = 2 := by simpa using hperm.length_eq
  obtain ⟨x, y, rfl⟩ : ∃ x y, l = [x, y] := by
    match l, hlen with
    | [x, y], _ => exact ⟨x, y, rfl⟩
  by_cases hxa : x = a
  · subst hxa
    have h2 : [y].Perm [b] := hperm.cons_inv
    rw [List.perm_singleton.mp h2]
  · have hx_mem : x ∈ [a, b] := hperm.mem_iff.mp (by simp)
    have hxb : x = b := by
      rcases List.mem_pair.mp hx_mem with h | h
      · exact absurd h hxa
      · exact h
    subst hxb
    have ha : a ∈ [x, y] := hperm.mem_iff.mpr (by simp)
    have hay : y = a := by
      rcases List.mem_pair.mp ha with h | h
      · exact absurd h.symm hxa
      · exact h.symm
    subst hay
    exact absurd ((List.pairwise_cons.mp hpair).1 y (by simp)) hnr

lemma sum_map_add {κ : Type} (l : List κ) (f g : κ → Int) :
    (l.map (fun x => f x + g x)).sum = (l.map f).sum + (l.map g).sum := by
  induction l with
  | nil => simp
  | cons a t ih => simp only [List.map_cons, List.sum_cons, ih]; ring

lemma sum_map_ite_key {κ : Type} [DecidableEq κ] (k0 : κ) (c : Int) :
    ∀ (ks : List κ), ks.Nodup →
      (ks.map (fun k => if k0 = k then c else 0)).sum = if k0 ∈ ks then c else 0 := by
  intro ks
  induction ks with
  | nil => simp
  | cons k t ih =>
    intro hnd
    simp only [List.nodup_cons] at hnd
    obtain ⟨hk, hndt⟩ := hnd
    simp only [List.map_cons, List.sum_cons, ih hndt, List.mem_cons]
    by_cases he : k0 = k
    · subst he
      rw [if_pos rfl, if_pos (Or.inl rfl), if_neg (by simpa using hk)]
      ring
    · rw [if_neg he]
      by_cases hm : k0 ∈ t
      · rw [if_pos hm, if_pos (Or.inr hm)]; ring
      · rw [if_neg hm, if_neg (by tauto)]; ring

/-! ### Facts about the preprocessing pipeline -/

lemma year_col_2011 : (extractYear "population_2011").getD 0 = 2011 := by decide

lemma year_col_2022 : (extractYear "population_2022").getD 0 = 2022 := by decide

lemma mkDetailRow_spec {r : AgeGenderRawRow} {d : AgeGenderDetailRow}
    (h : mkDetailRow r = some d) :
    d.name = r.name ∧ d.sex = r.sex ∧ d.age = r.age ∧
      ageNumericOf r.age = some d.age_numeric ∧ d.age_band = ageBandOf d.age_numeric ∧
      d.population_2011 = r.population_2011 ∧ d.population_2022 = r.population_2022 := by
  unfold mkDetailRow at h
  cases ha : ageNumericOf r.age with
  | none => rw [ha] at h; exact absurd h (by simp)
  | some a =>
    rw [ha] at h
    simp only [Option.map_some', Option.some.injEq] at h
    subst h
    exact ⟨rfl, rfl, rfl, rfl, rfl, rfl, rfl⟩

lemma preprocess_spec {raw : List AgeGenderRawRow} {detail : List AgeGenderDetailRow}
    {melted : List AgeGenderMeltedRow}
    (h : preprocess_age_gender_data raw = some (detail, melted)) :
    mapO mkDetailRow raw = some detail ∧
      melted = List.insertionSort MeltLE (melt_long detail) := by
  unfold preprocess_age_gender_data at h
  cases hm : mapO mkDetailRow raw with
  | none => rw [hm] at h; exact absurd h (by simp)
  | some d =>
    rw [hm] at h
    simp only [Option.map_some', Option.some.injEq, Prod.mk.injEq] at h
    obtain ⟨rfl, rfl⟩ := h
    exact ⟨rfl, rfl⟩

/-- The 2011 long-form row of a detail row. -/
lemma meltRow_2011_fields (d : AgeGenderDetailRow) :
    (meltRow d "population_2011" d.population_2011).Year = 2011 ∧
      (meltRow d "population_2011" d.population_2011).Population = d.population_2011 :=
  ⟨year_col_2011, rfl⟩

/-- The 2022 long-form row of a detail row. -/
lemma meltRow_2022_fields (d : AgeGenderDetailRow) :
    (meltRow d "population_2022" d.population_2022).Year = 2022 ∧
      (meltRow d "population_2022" d.population_2022).Population = d.population_2022 :=
  ⟨year_col_2022, rfl⟩

/-- Every row of the preprocessed detail table comes from a raw row via
`mkDetailRow`. -/
lemma detail_row_source {raw : List AgeGenderRawRow} {detail : List AgeGenderDetailRow}
    (h : mapO mkDetailRow raw = some detail) {d : AgeGenderDetailRow} (hd : d ∈ detail) :
    ∃ r ∈ raw, mkDetailRow r = some d :=
  forall₂_mem_right (mapO_some_forall₂ h) hd

/-- Sums of a population column over a filtered slice transfer between the
sorted melted table and the unsorted `melt_long` output. -/
lemma sum_filter_sorted_melted (detail : List AgeGenderDetailRow)
    (p : AgeGenderMeltedRow → Bool) :
    (((List.insertionSort MeltLE (melt_long detail)).filter p).map
        (fun r => r.Population)).sum
      = (((melt_long detail).filter p).map (fun r => r.Population)).sum :=
  ((((List.perm_insertionSort MeltLE (melt_long detail)).filter p).map
    (fun r => r.Population)).sum_eq)

/-! ### Facts about the gender-comparison aggregation -/

lemma grouped_df_gender_eq (rows : List AgeGenderMeltedRow) :
    grouped_df_gender rows = (groupSortedKeys rows).map
      (fun k =>
        { name := k.1, sex := k.2,
          Population :=
            ((rows.filter (fun r => decide (r.name = k.1 ∧ r.sex = k.2))).map
              (fun r => r.Population)).sum } : String × String → GroupedRow) := rfl

lemma groupSortedKeys_nodup (rows : List AgeGenderMeltedRow) :
    (groupSortedKeys rows).Nodup :=
  ((List.perm_insertionSort GroupKeyLE _).nodup_iff).mpr
    (List.nodup_dedup _)

lemma mem_groupSortedKeys {rows : List AgeGenderMeltedRow} {k : String × String} :
    k ∈ groupSortedKeys rows ↔ k ∈ rows.map (fun r => (r.name, r.sex)) := by
  unfold groupSortedKeys
  rw [(List.perm_insertionSort GroupKeyLE _).mem_iff, List.mem_dedup]

/-- Partition lemma: summing the per-group sums over all group keys of a
fixed name equals the direct sum over rows of that name. -/
lemma sum_groups (ks : List (String × String)) (hnd : ks.Nodup) (n : String) :
    ∀ rows : List AgeGenderMeltedRow, (∀ r ∈ rows, (r.name, r.sex) ∈ ks) →
      ((ks.filter (fun k => decide (k.1 = n))).map
          (fun k => ((rows.filter (fun r => decide (r.name = k.1 ∧ r.sex = k.2))).map
            (fun r => r.Population)).sum)).sum
        = ((rows.filter (fun r => decide (r.name = n))).map (fun r => r.Population)).sum := by
  intro rows
  induction rows with
  | nil =>
    intro _
    simp only [List.filter_nil, List.map_nil, List.sum_nil]
    exact List.sum_eq_zero (by simp)
  | cons r t ih =>
    intro hcov
    have hcovt : ∀ x ∈ t, (x.name, x.sex) ∈ ks :=
      fun x hx => hcov x (List.mem_cons_of_mem _ hx)
    have hpoint : ∀ k ∈ ks.filter (fun k => decide (k.1 = n)),
        (((r :: t).filter (fun x => decide (x.name = k.1 ∧ x.sex = k.2))).map
            (fun x => x.Population)).sum
          = (if (r.name, r.sex) = k then r.Population else 0)
            + ((t.filter (fun x => decide (x.name = k.1 ∧ x.sex = k.2))).map
                (fun x => x.Population)).sum := by
      intro k _
      by_cases hm : r.name = k.1 ∧ r.sex = k.2
      · rw [List.filter_cons, if_pos (by simpa using hm)]
        simp only [List.map_cons, List.sum_cons]
        rw [if_pos (Prod.ext_iff.mpr ⟨hm.1, hm.2⟩)]
      · rw [List.filter_cons, if_neg (by simpa using hm),
          if_neg (fun he => hm ⟨congrArg Prod.fst he, congrArg Prod.snd he⟩), zero_add]
    rw [List.map_congr_left hpoint, sum_map_add,
      sum_map_ite_key (r.name, r.sex) r.Population _ (hnd.filter _), ih hcovt]
    have hmem : (r.name, r.sex) ∈ ks := hcov r (List.mem_cons_self _ _)
    by_cases hn : r.name = n
    · rw [if_pos (List.mem_filter.mpr ⟨hmem, by simpa using hn⟩),
        List.filter_cons, if_pos (by simpa using hn)]
      simp
    · rw [if_neg (fun hin => hn (by simpa using (List.mem_filter.mp hin).2)),
        List.filter_cons, if_neg (by simpa using hn), zero_add]

/-- Summing the grouped `Population` over all groups of a fixed name gives the
sum of `Population` over all rows of that name: the group-by is a partition. -/
lemma grouped_sum_name (rows : List AgeGenderMeltedRow) (n : String) :
    (((grouped_df_gender rows).filter (fun g => decide (g.name = n))).map
        (fun g => g.Population)).sum
      = ((rows.filter (fun r => decide (r.name = n))).map (fun r => r.Population)).sum := by
  rw [grouped_df_gender_eq, List.filter_map, List.map_map]
  change (((groupSortedKeys rows).filter (fun k => decide (k.1 = n))).map
    (fun k => ((rows.filter (fun r => decide (r.name = k.1 ∧ r.sex = k.2))).map
      (fun r => r.Population)).sum)).sum = _
  have hperm : ((groupSortedKeys rows).filter
      (fun k : String × String => decide (k.1 = n))).Perm
      (((rows.map (fun r => (r.name, r.sex))).dedup).filter
        (fun k : String × String => decide (k.1 = n))) :=
    (List.perm_insertionSort GroupKeyLE _).filter _
  rw [(hperm.map (fun k : String × String =>
    ((rows.filter (fun r => decide (r.name = k.1 ∧ r.sex = k.2))).map
      (fun r => r.Population)).sum)).sum_eq]
  refine sum_groups _ (List.nodup_dedup _) n rows ?_
  intro r hr
  rw [List.mem_dedup]
  exact List.mem_map_of_mem _ hr

lemma ageBandOf_spec (a : Int) (h : 0 ≤ a) :
    (∃ b, ageBandOf a = some b ∧ b ∈ age_bands_raw) ∧
    (ageBandOf a = some "0-17" ↔ a ≤ 17) ∧
    (ageBandOf a = some "18-24" ↔ 17 < a ∧ a ≤ 24) ∧
    (ageBandOf a = some "25-39" ↔ 24 < a ∧ a ≤ 39) ∧
    (ageBandOf a = some "40-59" ↔ 39 < a ∧ a ≤ 59) ∧
    (ageBandOf a = some "60-74" ↔ 59 < a ∧ a ≤ 74) ∧
    (ageBandOf a = some "75+" ↔ 74 < a) := by
  unfold ageBandOf
  rw [if_neg (by omega)]
  split_ifs <;>
    refine ⟨⟨_, rfl, by decide⟩, ?_, ?_, ?_, ?_, ?_, ?_⟩ <;>
    first
      | exact iff_of_true rfl (by omega)
      | exact iff_of_false (by decide) (by omega)

lemma ageBandOf_eq_band0 (a : Int) : ageBandOf a = some "0-17" ↔ 0 ≤ a ∧ a ≤ 17 := by
  unfold ageBandOf
  split_ifs <;>
    first
      | exact iff_of_true rfl (by omega)
      | exact iff_of_false (by decide) (by omega)

/-- With `"All Ages"` selected, no band filter is applied. -/
lemma filtered_all_ages (melted : List AgeGenderMeltedRow) (year : Nat) (locs : List String) :
    filtered_df_gender_melted melted year locs "All Ages"
      = melted.filter (fun r => decide (r.Year = year ∧ r.name ∈ locs)) := by
  unfold filtered_df_gender_melted
  rw [if_neg (by simp)]

/-- Population sums over a year-2011 slice of the melted table reduce to sums
of `population_2011` over the matching detail rows. -/
lemma sum_melt_long_filter_2011 (detail : List AgeGenderDetailRow)
    (po : AgeGenderMeltedRow → Bool) (pD : AgeGenderDetailRow → Bool)
    (hpo : ∀ d c v, po (meltRow d c v) = pD d) :
    (((melt_long detail).filter (fun r => decide (r.Year = 2011) && po r)).map
        (fun r => r.Population)).sum
      = ((detail.filter pD).map (fun d => d.population_2011)).sum := by
  unfold melt_long
  rw [List.filter_append, List.map_append, List.sum_append]
  have h22 : (detail.map (fun d => meltRow d "population_2022" d.population_2022)).filter
      (fun r => decide (r.Year = 2011) && po r) = [] := by
    rw [List.filter_eq_nil_iff]
    intro x hx
    obtain ⟨d, _, rfl⟩ := List.mem_map.mp hx
    simp [meltRow, year_col_2022]
  rw [h22, List.map_nil, List.sum_nil, add_zero]
  rw [List.filter_map, List.map_map]
  have hcong : detail.filter ((fun r => decide (r.Year = 2011) && po r) ∘
      (fun d => meltRow d "population_2011" d.population_2011)) = detail.filter pD := by
    apply List.filter_congr
    intro d _
    show (decide ((extractYear "population_2011").getD 0 = 2011)
        && po (meltRow d "population_2011" d.population_2011)) = pD d
    rw [year_col_2011, hpo]
    simp
  rw [hcong]
  rfl

/-- Population sums over a year-2022 slice of the melted table reduce to sums
of `population_2022` over the matching detail rows. -/
lemma sum_melt_long_filter_2022 (detail : List AgeGenderDetailRow)
    (po : AgeGenderMeltedRow → Bool) (pD : AgeGenderDetailRow → Bool)
    (hpo : ∀ d c v, po (meltRow d c v) = pD d) :
    (((melt_long detail).filter (fun r => decide (r.Year = 2022) && po r)).map
        (fun r => r.Population)).sum
      = ((detail.filter pD).map (fun d => d.population_2022)).sum := by
  unfold melt_long
  rw [List.filter_append, List.map_append, List.sum_append]
  have h11 : (detail.map (fun d => meltRow d "population_2011" d.population_2011)).filter
      (fun r => decide (r.Year = 2022) && po r) = [] := by
    rw [List.filter_eq_nil_iff]
    intro x hx
    obtain ⟨d, _, rfl⟩ := List.mem_map.mp hx
    simp [meltRow, year_col_2011]
  rw [h11, List.map_nil, List.sum_nil, zero_add]
  rw [List.filter_map, List.map_map]
  have hcong : detail.filter ((fun r => decide (r.Year = 2022) && po r) ∘
      (fun d => meltRow d "population_2022" d.population_2022)) = detail.filter pD := by
    apply List.filter_congr
    intro d _
    show (decide ((extractYear "population_2022").getD 0 = 2022)
        && po (meltRow d "population_2022" d.population_2022)) = pD d
    rw [year_col_2022, hpo]
    simp
  rw [hcong]
  rfl

/-- Every row of the melted table carries the sex of some raw row. -/
lemma melted_sex_cases {raw : List AgeGenderRawRow} {detail : List AgeGenderDetailRow}
    (hm : mapO mkDetailRow raw = some detail)
    (hsex : ∀ r ∈ raw, r.sex = "F" ∨ r.sex = "M") :
    ∀ x ∈ List.insertionSort MeltLE (melt_long detail), x.sex = "F" ∨ x.sex = "M" := by
  intro x hx
  rw [(List.perm_insertionSort MeltLE _).mem_iff] at hx
  unfold melt_long at hx
  rcases List.mem_append.mp hx with hx | hx <;>
    obtain ⟨d, hd, rfl⟩ := List.mem_map.mp hx <;>
    · obtain ⟨r, hr, hrd⟩ := detail_row_source hm hd
      have := (mkDetailRow_spec hrd).2.1
      simp only [meltRow]
      rw [this]
      exact hsex r hr

/-! ### Claim theorems -/

/-- C1: gender-comparison aggregation is a faithful total.  For either year
and any selected location set, with the band selector at `"All Ages"`, the
sum of the aggregated `Population` over all sexes for a selected name equals
the sum of the `population_<year>` column over all age rows of that name in
the raw table. -/
theorem gender_comparison_all_ages_total
    (raw : List AgeGenderRawRow) (detail : List AgeGenderDetailRow)
    (melted : List AgeGenderMeltedRow)
    (h : preprocess_age_gender_data raw = some (detail, melted))
    (year : Nat) (hy : year = 2011 ∨ year = 2022)
    (locs : List String) (n : String) (hn : n ∈ locs) :
    (((grouped_df_gender (filtered_df_gender_melted melted year locs "All Ages")).filter
        (fun g => decide (g.name = n))).map (fun g => g.Population)).sum
      = ((raw.filter (fun r => decide (r.name = n))).map
          (fun r => if year = 2011 then r.population_2011 else r.population_2022)).sum := by
  obtain ⟨hm, rfl⟩ := preprocess_spec h
  rw [grouped_sum_name, filtered_all_ages]
  have hstep : ((List.insertionSort MeltLE (melt_long detail)).filter
      (fun r => decide (r.Year = year ∧ r.name ∈ locs))).filter
        (fun r => decide (r.name = n))
      = (List.insertionSort MeltLE (melt_long detail)).filter
          (fun r => decide (r.Year = year) &&
            (decide (r.name ∈ locs) && decide (r.name = n))) := by
    rw [List.filter_filter]
    apply List.filter_congr
    intro r _
    by_cases h1 : r.Year = year <;> by_cases h2 : r.name ∈ locs <;>
      by_cases h3 : r.name = n <;> simp [h1, h2, h3]
  rw [hstep]
  have hpt : ∀ (a : AgeGenderRawRow) (b : AgeGenderDetailRow), mkDetailRow a = some b →
      decide (a.name = n) = (decide (b.name ∈ locs) && decide (b.name = n)) := by
    intro a b hab
    have hname := (mkDetailRow_spec hab).1
    rw [hname]
    by_cases h3 : a.name = n
    · subst h3
      simp [hn]
    · simp [h3]
  rcases hy with rfl | rfl
  · rw [sum_filter_sorted_melted detail
      (fun r => decide (r.Year = 2011) && (decide (r.name ∈ locs) && decide (r.name = n))),
      sum_melt_long_filter_2011 detail _
        (fun d => decide (d.name ∈ locs) && decide (d.name = n)) (fun d c v => rfl)]
    have hif : (fun r : AgeGenderRawRow =>
        if (2011 : Nat) = 2011 then r.population_2011 else r.population_2022)
        = fun r : AgeGenderRawRow => r.population_2011 := by
      funext r
      rw [if_pos rfl]
    rw [hif]
    exact (forall₂_sum_filter hpt
      (fun a b hab => ((mkDetailRow_spec hab).2.2.2.2.2.1).symm)
      (mapO_some_forall₂ hm)).symm
  · rw [sum_filter_sorted_melted detail
      (fun r => decide (r.Year = 2022) && (decide (r.name ∈ locs) && decide (r.name = n))),
      sum_melt_long_filter_2022 detail _
        (fun d => decide (d.name ∈ locs) && decide (d.name = n)) (fun d c v => rfl)]
    have hif : (fun r : AgeGenderRawRow =>
        if (2022 : Nat) = 2011 then r.population_2011 else r.population_2022)
        = fun r : AgeGenderRawRow => r.population_2022 := by
      funext r
      rw [if_neg (by omega)]
    rw [hif]
    exact (forall₂_sum_filter hpt
      (fun a b hab => ((mkDetailRow_spec hab).2.2.2.2.2.2).symm)
      (mapO_some_forall₂ hm)).symm

/-- C1 witness: the aggregation identity evaluated on the sample table for
year 2022, locations {SCOTLAND, WALES}, name SCOTLAND. -/
theorem gender_comparison_all_ages_total_witness :
    preprocess_age_gender_data sampleRaw = some (samplePre.1, samplePre.2) ∧
    (((grouped_df_gender (filtered_df_gender_melted samplePre.2 2022
        ["SCOTLAND", "WALES"] "All Ages")).filter
        (fun g => decide (g.name = "SCOTLAND"))).map (fun g => g.Population)).sum
      = ((sampleRaw.filter (fun r => decide (r.name = "SCOTLAND"))).map
          (fun r => if (2022 : Nat) = 2011 then r.population_2011 else r.population_2022)).sum :=
  ⟨by decide,
    gender_comparison_all_ages_total sampleRaw samplePre.1 samplePre.2 (by decide)
      2022 (Or.inr rfl) ["SCOTLAND", "WALES"] "SCOTLAND" (by decide)⟩

/-- C2: age banding is total and exact on every detail row with non-negative
numeric age: the stored band is the `pd.cut` of `age_numeric`, lies among the
six labels, and each label is characterised by its right-closed interval. -/
theorem age_band_total_exact
    (raw : List AgeGenderRawRow) (detail : List AgeGenderDetailRow)
    (melted : List AgeGenderMeltedRow)
    (h : preprocess_age_gender_data raw = some (detail, melted))
    (d : AgeGenderDetailRow) (hd : d ∈ detail) (hnn : 0 ≤ d.age_numeric) :
    d.age_band = ageBandOf d.age_numeric ∧
    (∃ b, d.age_band = some b ∧ b ∈ age_bands_raw) ∧
    (d.age_band = some "0-17" ↔ d.age_numeric ≤ 17) ∧
    (d.age_band = some "18-24" ↔ 17 < d.age_numeric ∧ d.age_numeric ≤ 24) ∧
    (d.age_band = some "25-39" ↔ 24 < d.age_numeric ∧ d.age_numeric ≤ 39) ∧
    (d.age_band = some "40-59" ↔ 39 < d.age_numeric ∧ d.age_numeric ≤ 59) ∧
    (d.age_band = some "60-74" ↔ 59 < d.age_numeric ∧ d.age_numeric ≤ 74) ∧
    (d.age_band = some "75+" ↔ 74 < d.age_numeric) ∧
    (∀ a : Int, 0 ≤ a → ∃ b, ageBandOf a = some b ∧ b ∈ age_bands_raw) := by
  obtain ⟨hm, _⟩ := preprocess_spec h
  obtain ⟨r, _, hrd⟩ := detail_row_source hm hd
  have hband := (mkDetailRow_spec hrd).2.2.2.2.1
  rw [hband]
  have hs := ageBandOf_spec d.age_numeric hnn
  exact ⟨rfl, hs.1, hs.2.1, hs.2.2.1, hs.2.2.2.1, hs.2.2.2.2.1, hs.2.2.2.2.2.1,
    hs.2.2.2.2.2.2, fun a ha => (ageBandOf_spec a ha).1⟩

/-- C2 witness: the banding characterisation evaluated at the sample detail
row with `age_numeric = 17` (which falls in band "0-17"). -/
theorem age_band_total_exact_witness :
    sampleD ∈ samplePre.1 ∧ 0 ≤ sampleD.age_numeric ∧
    sampleD.age_band = ageBandOf sampleD.age_numeric ∧
    (sampleD.age_band = some "0-17" ↔ sampleD.age_numeric ≤ 17) :=
  ⟨by decide, by decide,
    (age_band_total_exact sampleRaw samplePre.1 samplePre.2 (by decide) sampleD
      (by decide) (by decide)).1,
    (age_band_total_exact sampleRaw samplePre.1 samplePre.2 (by decide) sampleD
      (by decide) (by decide)).2.2.1⟩

/-- C4: for every non-empty selection the density filter returns exactly the
rows whose name is selected (as a permutation, so whole records pass through
unchanged), sorted ascending by name. -/
theorem density_filter_exact (df : List DensityRow) (S : List String) (hS : S ≠ []) :
    (filtered_df_density df S).Perm (df.filter (fun r => decide (r.name ∈ S))) ∧
    List.Sorted DensityLE (filtered_df_density df S) ∧
    (∀ r, r ∈ filtered_df_density df S ↔ r ∈ df ∧ r.name ∈ S) := by
  refine ⟨List.perm_insertionSort _ _, List.sorted_insertionSort _ _, fun r => ?_⟩
  unfold filtered_df_density
  rw [(List.perm_insertionSort _ _).mem_iff (a := r), List.mem_filter]
  simp

/-- C4 witness: selecting {ENGLAND, WALES} from the sample density table
returns exactly the two rows, ordered ENGLAND then WALES, fields unchanged. -/
theorem density_filter_exact_witness :
    (["ENGLAND", "WALES"] : List String) ≠ [] ∧
    filtered_df_density sampleDensity ["ENGLAND", "WALES"] =
      [{ name := "ENGLAND", code := "E92000001", geography := "Country", area_sq_km := 130310,
         population_2011 := 53107000, population_2022 := 57106000,
         density_2011 := 408, density_2022 := 438 },
       { name := "WALES", code := "W92000004", geography := "Country", area_sq_km := 20779,
         population_2011 := 3063456, population_2022 := 3131640,
         density_2011 := 147, density_2022 := 151 }] ∧
    (filtered_df_density sampleDensity ["ENGLAND", "WALES"]).Perm
      (sampleDensity.filter (fun r => decide (r.name ∈ (["ENGLAND", "WALES"] : List String)))) ∧
    List.Sorted DensityLE (filtered_df_density sampleDensity ["ENGLAND", "WALES"]) :=
  ⟨by decide, rfl,
    (density_filter_exact sampleDensity ["ENGLAND", "WALES"] (by decide)).1,
    (density_filter_exact sampleDensity ["ENGLAND", "WALES"] (by decide)).2.1⟩

/-- C7: the long-form table is sorted ascending by the lexicographic key
`(name, Year, sex, age_numeric)`, and the sort is stable: rows equal on all
four keys keep their pre-sort (melt-order) relative order. -/
theorem melted_sorted_and_stable
    (raw : List AgeGenderRawRow) (detail : List AgeGenderDetailRow)
    (melted : List AgeGenderMeltedRow)
    (h : preprocess_age_gender_data raw = some (detail, melted)) :
    List.Sorted MeltLE melted ∧
    (∀ k, melted.filter (fun r => decide (meltedKey r = k))
      = (melt_long detail).filter (fun r => decide (meltedKey r = k))) := by
  obtain ⟨_, rfl⟩ := preprocess_spec h
  refine ⟨List.sorted_insertionSort _ _, fun k => ?_⟩
  refine filter_insertionSort MeltLE _ ?_ _
  intro a b hpa hpb
  simp only [decide_eq_true_eq] at hpa hpb
  exact meltLE_of_key_eq (hpa.trans hpb.symm)

/-- C7 witness: sortedness and stability evaluated on the sample table. -/
theorem melted_sorted_and_stable_witness :
    List.Sorted MeltLE samplePre.2 ∧
    samplePre.2.filter (fun r => decide (meltedKey r = ("SCOTLAND", 2011, "F", 17)))
      = (melt_long samplePre.1).filter
          (fun r => decide (meltedKey r = ("SCOTLAND", 2011, "F", 17))) :=
  ⟨(melted_sorted_and_stable sampleRaw samplePre.1 samplePre.2 (by decide)).1,
    (melted_sorted_and_stable sampleRaw samplePre.1 samplePre.2 (by decide)).2
      ("SCOTLAND", 2011, "F", 17)⟩

/-- C3: unpivoting is lossless.  Under the raw-table invariant of one row per
`(name, sex, age)` triple, the long-form table holds exactly two rows for the
key of any detail row — the 2011 row first carrying `population_2011`, then
the 2022 row carrying `population_2022` — each preserving the non-population
detail fields. -/
theorem melt_lossless
    (raw : List AgeGenderRawRow) (detail : List AgeGenderDetailRow)
    (melted : List AgeGenderMeltedRow)
    (h : preprocess_age_gender_data raw = some (detail, melted))
    (hkeys : (raw.map (fun r => (r.name, r.sex, r.age))).Nodup)
    (d : AgeGenderDetailRow) (hd : d ∈ detail) :
    melted.filter (fun r => decide ((r.name, r.sex, r.age) = (d.name, d.sex, d.age)))
      = [meltRow d "population_2011" d.population_2011,
         meltRow d "population_2022" d.population_2022] ∧
    (meltRow d "population_2011" d.population_2011).Year = 2011 ∧
    (meltRow d "population_2011" d.population_2011).Population = d.population_2011 ∧
    (meltRow d "population_2022" d.population_2022).Year = 2022 ∧
    (meltRow d "population_2022" d.population_2022).Population = d.population_2022 ∧
    (∀ v c, (meltRow d c v).name = d.name ∧ (meltRow d c v).sex = d.sex ∧
      (meltRow d c v).age = d.age ∧ (meltRow d c v).age_numeric = d.age_numeric ∧
      (meltRow d c v).age_band = d.age_band) := by
  obtain ⟨hm, rfl⟩ := preprocess_spec h
  refine ⟨?_, year_col_2011, rfl, year_col_2022, rfl, fun v c => ⟨rfl, rfl, rfl, rfl, rfl⟩⟩
  have hkeysd : (detail.map (fun d => (d.name, d.sex, d.age))).Nodup := by
    have hmapeq : raw.map (fun r => (r.name, r.sex, r.age))
        = detail.map (fun d => (d.name, d.sex, d.age)) := by
      refine forall₂_map_eq (fun a b hab => ?_) (mapO_some_forall₂ hm)
      have hs := mkDetailRow_spec hab
      rw [hs.1, hs.2.1, hs.2.2.1]
    rw [← hmapeq]
    exact hkeys
  have hd0 : detail.filter
      (fun x => decide ((x.name, x.sex, x.age) = (d.name, d.sex, d.age))) = [d] :=
    filter_key_eq_single
      (fun x : AgeGenderDetailRow => (x.name, x.sex, x.age)) detail hkeysd hd
  have hd1 : detail.filter
      ((fun r : AgeGenderMeltedRow =>
          decide ((r.name, r.sex, r.age) = (d.name, d.sex, d.age))) ∘
        (fun x => meltRow x "population_2011" x.population_2011)) = [d] := hd0
  have hd2 : detail.filter
      ((fun r : AgeGenderMeltedRow =>
          decide ((r.name, r.sex, r.age) = (d.name, d.sex, d.age))) ∘
        (fun x => meltRow x "population_2022" x.population_2022)) = [d] := hd0
  have hunsorted : (melt_long detail).filter
      (fun r => decide ((r.name, r.sex, r.age) = (d.name, d.sex, d.age)))
      = [meltRow d "population_2011" d.population_2011,
         meltRow d "population_2022" d.population_2022] := by
    unfold melt_long
    rw [List.filter_append, List.filter_map, List.filter_map, hd1, hd2]
    rfl
  have hperm : ((List.insertionSort MeltLE (melt_long detail)).filter
      (fun r => decide ((r.name, r.sex, r.age) = (d.name, d.sex, d.age)))).Perm
      [meltRow d "population_2011" d.population_2011,
       meltRow d "population_2022" d.population_2022] := by
    rw [← hunsorted]
    exact (List.perm_insertionSort MeltLE (melt_long detail)).filter _
  have hpair : ((List.insertionSort MeltLE (melt_long detail)).filter
      (fun r => decide ((r.name, r.sex, r.age) = (d.name, d.sex, d.age)))).Pairwise MeltLE :=
    (List.sorted_insertionSort MeltLE (melt_long detail)).filter _
  have hnr : ¬ MeltLE (meltRow d "population_2022" d.population_2022)
      (meltRow d "population_2011" d.population_2011) := by
    unfold MeltLE
    have hk2 : meltedKey (meltRow d "population_2022" d.population_2022)
        = (d.name, 2022, d.sex, d.age_numeric) := by
      unfold meltedKey meltRow
      rw [year_col_2022]
    have hk1 : meltedKey (meltRow d "population_2011" d.population_2011)
        = (d.name, 2011, d.sex, d.age_numeric) := by
      unfold meltedKey meltRow
      rw [year_col_2011]
    rw [hk2, hk1]
    unfold meltKeyLEb lexb
    simp [strLtb_irrefl, natLtb]
  exact perm_pair_of_sorted hperm hpair hnr

/-- C3 witness: exactly two long-form rows for the sample detail row's key. -/
theorem melt_lossless_witness :
    (sampleRaw.map (fun r => (r.name, r.sex, r.age))).Nodup ∧
    samplePre.2.filter
        (fun r => decide ((r.name, r.sex, r.age) = (sampleD.name, sampleD.sex, sampleD.age)))
      = [meltRow sampleD "population_2011" sampleD.population_2011,
         meltRow sampleD "population_2022" sampleD.population_2022] :=
  ⟨by decide,
    (melt_lossless sampleRaw samplePre.1 samplePre.2 (by decide) (by decide) sampleD
      (by decide)).1⟩

/-- C5 counterexample: the value `"-3"` is neither `"90+"` nor parseable as a
non-negative integer (its digit-run parse is `none`), yet preprocessing does
not fail on it: `astype(int)` accepts signed integers, producing `-3`. -/
theorem neg_age_preprocess_succeeds :
    (preprocess_age_gender_data [negAgeRow]).isSome = true ∧
    ageNumericOf "-3" = some (-3) ∧
    digitsVal (trimChars "-3".data) = none ∧
    ("-3" : String) ≠ "90+" :=
  ⟨by decide, by decide, by decide, by decide⟩

/-- C5 amended: `age_numeric` is the Python integer parse of `age` (signed
integers allowed), with the literal `"90+"` mapping to 90, and preprocessing
fails exactly when some age value is neither `"90+"` nor parseable as a
(possibly signed) integer. -/
theorem age_parse_raises_iff (raw : List AgeGenderRawRow) :
    ((preprocess_age_gender_data raw).isSome = true ↔
      ∀ r ∈ raw, (ageNumericOf r.age).isSome = true) ∧
    ageNumericOf "90+" = some 90 ∧
    (∀ s, s ≠ "90+" → ageNumericOf s = pyInt s) ∧
    (∀ detail melted, preprocess_age_gender_data raw = some (detail, melted) →
      List.Forall₂ (fun r d => ageNumericOf r.age = some d.age_numeric) raw detail) := by
  refine ⟨?_, rfl, fun s hs => by unfold ageNumericOf; rw [if_neg hs], ?_⟩
  · unfold preprocess_age_gender_data
    rw [Option.isSome_map']
    rw [mapO_isSome_iff]
    refine forall_congr' (fun r => imp_congr_right (fun _ => ?_))
    cases ha : ageNumericOf r.age <;> simp [mkDetailRow, ha]
  · intro detail melted hp
    exact (mapO_some_forall₂ (preprocess_spec hp).1).imp
      (fun a b hab => (mkDetailRow_spec hab).2.2.2.1)

/-- C5 amended witness: the parse correspondence on the sample table, which
contains both plain digits and the `"90+"` sentinel. -/
theorem age_parse_raises_iff_witness :
    (preprocess_age_gender_data sampleRaw).isSome = true ∧
    List.Forall₂ (fun r d => ageNumericOf r.age = some d.age_numeric) sampleRaw samplePre.1 :=
  ⟨(age_parse_raises_iff sampleRaw).1.mpr (by decide),
    (age_parse_raises_iff sampleRaw).2.2.2 samplePre.1 samplePre.2 (by decide)⟩

/-- C8 counterexample: a non-empty selection matching zero density rows does
not render the placeholder — the density section builds a real chart whose
series are empty. -/
theorem density_zero_match_renders_chart :
    density_section sampleDensity ["ATLANTIS"]
      = DensityFig.chart [] [] [] [] ["ATLANTIS"] ∧
    isEmptyFig (density_section sampleDensity ["ATLANTIS"]) = false ∧
    (["ATLANTIS"] : List String) ≠ [] ∧
    sampleDensity.filter (fun r => decide (r.name ∈ (["ATLANTIS"] : List String))) = [] :=
  ⟨rfl, rfl, by decide, rfl⟩

/-- C8 amended: only the empty selection set renders the placeholder chart; a
non-empty selection always renders a real chart built from the filtered rows
(with empty series when no row matches), so the two cases are distinguished. -/
theorem density_empty_vs_zero_rows (df : List DensityRow) (S : List String) :
    (S = [] → density_section df S
      = create_empty_figure "Please select at least one location for density comparison.") ∧
    (S ≠ [] → isEmptyFig (density_section df S) = false ∧
      density_section df S = DensityFig.chart
        ((filtered_df_density df S).map (fun r => r.name))
        ((filtered_df_density df S).map (fun r => r.density_2011))
        ((filtered_df_density df S).map (fun r => r.name))
        ((filtered_df_density df S).map (fun r => r.density_2022))
        (List.insertionSort (fun a b : String => strLeb a b = true) S)) := by
  constructor
  · intro hS
    subst hS
    rfl
  · intro hS
    have hne : ¬ (S.isEmpty = true) := by
      cases S with
      | nil => exact absurd rfl hS
      | cons a t => simp
    unfold density_section
    rw [if_neg hne]
    exact ⟨rfl, rfl⟩

/-- C8 amended witness: the two branches evaluated concretely — empty
selection gives the placeholder, the zero-match selection gives a chart. -/
theorem density_empty_vs_zero_rows_witness :
    density_section sampleDensity []
      = create_empty_figure "Please select at least one location for density comparison." ∧
    isEmptyFig (density_section sampleDensity ["ATLANTIS"]) = false :=
  ⟨(density_empty_vs_zero_rows sampleDensity []).1 rfl,
    ((density_empty_vs_zero_rows sampleDensity ["ATLANTIS"]).2 (by decide)).1⟩

/-- C9: the gender chart renders exactly two traces, the female one built
from exactly the grouped rows with sex `'F'` and the male one from exactly
those with sex `'M'`; a grouped row of any other sex value is counted in the
group-by result but belongs to neither trace's source filter, while every
melted row (whatever its sex) contributes a group. -/
theorem fig_gender_comp_only_FM (rows : List AgeGenderMeltedRow) :
    (fig_gender_comp (grouped_df_gender rows)).length = 2 ∧
    (∃ fT mT, fig_gender_comp (grouped_df_gender rows) = [fT, mT] ∧
      fT.name = "Female" ∧ fT.marker_color = COLOR_FEMALE ∧
      fT.x = ((grouped_df_gender rows).filter
        (fun g => decide (g.sex = "F"))).map (fun g => g.name) ∧
      fT.y = ((grouped_df_gender rows).filter
        (fun g => decide (g.sex = "F"))).map (fun g => g.Population) ∧
      mT.name = "Male" ∧ mT.marker_color = COLOR_MALE ∧
      mT.x = ((grouped_df_gender rows).filter
        (fun g => decide (g.sex = "M"))).map (fun g => g.name) ∧
      mT.y = ((grouped_df_gender rows).filter
        (fun g => decide (g.sex = "M"))).map (fun g => g.Population)) ∧
    (∀ g ∈ grouped_df_gender rows, g.sex ≠ "F" → g.sex ≠ "M" →
      g ∉ (grouped_df_gender rows).filter (fun g2 => decide (g2.sex = "F")) ∧
      g ∉ (grouped_df_gender rows).filter (fun g2 => decide (g2.sex = "M"))) ∧
    (∀ r ∈ rows, ∃ g ∈ grouped_df_gender rows, g.name = r.name ∧ g.sex = r.sex) := by
  refine ⟨rfl, ⟨_, _, rfl, rfl, rfl, rfl, rfl, rfl, rfl, rfl, rfl⟩, ?_, ?_⟩
  · intro g _ hF hM
    exact ⟨fun hmem => hF (by simpa using (List.mem_filter.mp hmem).2),
      fun hmem => hM (by simpa using (List.mem_filter.mp hmem).2)⟩
  · intro r hr
    have hk : (r.name, r.sex) ∈ groupSortedKeys rows :=
      mem_groupSortedKeys.mpr (List.mem_map_of_mem _ hr)
    rw [grouped_df_gender_eq]
    exact ⟨_, List.mem_map_of_mem _ hk, rfl, rfl⟩

/-- C9 witness: the trace construction evaluated on the sample melted table. -/
theorem fig_gender_comp_only_FM_witness :
    (fig_gender_comp (grouped_df_gender samplePre.2)).length = 2 ∧
    (∃ g ∈ grouped_df_gender samplePre.2, g.name = "WALES" ∧ g.sex = "F") :=
  ⟨(fig_gender_comp_only_FM samplePre.2).1,
    (fig_gender_comp_only_FM samplePre.2).2.2.2
      { name := "WALES", sex := "F", age := "0", age_numeric := 0,
        age_band := some "0-17", Population := 5, Year := 2011 } (by decide)⟩

/-- C10: group-by key uniqueness and ordering — every `(name, sex)` pair
occurs at most once in the grouped result, the result is sorted by
`(name, sex)`, and for equal names any `'F'` row precedes any `'M'` row. -/
theorem grouped_keys_unique_sorted (rows : List AgeGenderMeltedRow) :
    ((grouped_df_gender rows).map (fun g => (g.name, g.sex))).Nodup ∧
    List.Sorted GroupedLE (grouped_df_gender rows) ∧
    (∀ i j : Fin (grouped_df_gender rows).length,
      ((grouped_df_gender rows).get i).name = ((grouped_df_gender rows).get j).name →
      ((grouped_df_gender rows).get i).sex = "F" →
      ((grouped_df_gender rows).get j).sex = "M" → (i : Nat) < (j : Nat)) := by
  have hnodup : ((grouped_df_gender rows).map (fun g => (g.name, g.sex))).Nodup := by
    rw [grouped_df_gender_eq, List.map_map]
    exact List.Nodup.map (fun a b hab => hab) (groupSortedKeys_nodup rows)
  have hsorted : List.Sorted GroupedLE (grouped_df_gender rows) := by
    rw [grouped_df_gender_eq]
    rw [List.Sorted, List.pairwise_map]
    exact List.sorted_insertionSort GroupKeyLE _
  refine ⟨hnodup, hsorted, ?_⟩
  intro i j hname hF hM
  rcases Nat.lt_trichotomy i j with hlt | heq | hgt
  · exact hlt
  · exfalso
    have : i = j := Fin.ext heq
    subst this
    rw [hF] at hM
    exact absurd hM (by decide)
  · exfalso
    have hle := hsorted.rel_get_of_lt (Fin.lt_def.mpr hgt)
    unfold GroupedLE groupKeyLEb lexb at hle
    rw [← hname, hF, hM] at hle
    simp [strLtb_irrefl, show strLeb "M" "F" = false from by decide] at hle

/-- C10 witness: key uniqueness and F-before-M ordering on the sample
grouped table. -/
theorem grouped_keys_unique_sorted_witness :
    ((grouped_df_gender samplePre.2).map (fun g => (g.name, g.sex))).Nodup ∧
    List.Sorted GroupedLE (grouped_df_gender samplePre.2) :=
  ⟨(grouped_keys_unique_sorted samplePre.2).1,
    (grouped_keys_unique_sorted samplePre.2).2.1⟩

/-- C6: band-specific gender comparison.  The filter keeps exactly the melted
rows of the chosen year and locations, restricted to the chosen band unless
`"All Ages"` is selected (in which case no band filter applies); for year
2022, locations {SCOTLAND} and band "0-17" the grouped result has at most two
rows (one per sex) and each row's `Population` sums `population_2022` over
exactly the Scotland detail rows with ages 0 through 17 of that sex. -/
theorem band_specific_gender_comparison
    (raw : List AgeGenderRawRow) (detail : List AgeGenderDetailRow)
    (melted : List AgeGenderMeltedRow)
    (h : preprocess_age_gender_data raw = some (detail, melted))
    (hsex : ∀ r ∈ raw, r.sex = "F" ∨ r.sex = "M")
    (year : Nat) (locs : List String) (b : String) :
    (∀ r, r ∈ filtered_df_gender_melted melted year locs b ↔
      (r ∈ melted ∧ r.Year = year ∧ r.name ∈ locs ∧
        (b ≠ "All Ages" → r.age_band = some b))) ∧
    (filtered_df_gender_melted melted year locs "All Ages"
      = melted.filter (fun r => decide (r.Year = year ∧ r.name ∈ locs))) ∧
    (grouped_df_gender (filtered_df_gender_melted melted 2022 ["SCOTLAND"] "0-17")).length ≤ 2 ∧
    (∀ g ∈ grouped_df_gender (filtered_df_gender_melted melted 2022 ["SCOTLAND"] "0-17"),
      g.name = "SCOTLAND" ∧
      g.Population = ((detail.filter (fun d => decide (d.name = "SCOTLAND" ∧ d.sex = g.sex ∧
        0 ≤ d.age_numeric ∧ d.age_numeric ≤ 17))).map (fun d => d.population_2022)).sum) := by
  obtain ⟨hm, rfl⟩ := preprocess_spec h
  have hfrows : filtered_df_gender_melted
      (List.insertionSort MeltLE (melt_long detail)) 2022 ["SCOTLAND"] "0-17"
      = ((List.insertionSort MeltLE (melt_long detail)).filter
          (fun r => decide (r.Year = 2022 ∧ r.name ∈ (["SCOTLAND"] : List String)))).filter
          (fun r => decide (r.age_band = some "0-17")) := by
    unfold filtered_df_gender_melted
    rw [if_pos (by decide)]
  have hnamesex : ∀ k ∈ groupSortedKeys (filtered_df_gender_melted
      (List.insertionSort MeltLE (melt_long detail)) 2022 ["SCOTLAND"] "0-17"),
      k.1 = "SCOTLAND" ∧ (k.2 = "F" ∨ k.2 = "M") := by
    intro k hk
    rw [mem_groupSortedKeys] at hk
    obtain ⟨r, hr, rfl⟩ := List.mem_map.mp hk
    rw [hfrows] at hr
    have hr1 := List.mem_filter.mp hr
    have hr2 := List.mem_filter.mp hr1.1
    have hname : r.name = "SCOTLAND" := by
      have := hr2.2
      simp only [decide_eq_true_eq, List.mem_singleton] at this
      exact this.2
    exact ⟨hname, melted_sex_cases hm hsex r hr2.1⟩
  refine ⟨?_, filtered_all_ages _ _ _, ?_, ?_⟩
  · intro r
    unfold filtered_df_gender_melted
    by_cases hb : b = "All Ages"
    · subst hb
      rw [if_neg (by simp)]
      simp only [List.mem_filter, decide_eq_true_eq]
      constructor
      · rintro ⟨h1, h2, h3⟩
        exact ⟨h1, h2, h3, fun hc => absurd rfl hc⟩
      · rintro ⟨h1, h2, h3, _⟩
        exact ⟨h1, h2, h3⟩
    · rw [if_pos hb]
      simp only [List.mem_filter, decide_eq_true_eq]
      constructor
      · rintro ⟨⟨h1, h2, h3⟩, h4⟩
        exact ⟨h1, h2, h3, fun _ => h4⟩
      · rintro ⟨h1, h2, h3, h4⟩
        exact ⟨⟨h1, h2, h3⟩, h4 hb⟩
  · have hsub : ∀ k ∈ groupSortedKeys (filtered_df_gender_melted
        (List.insertionSort MeltLE (melt_long detail)) 2022 ["SCOTLAND"] "0-17"),
        k ∈ [(("SCOTLAND" : String), ("F" : String)), ("SCOTLAND", "M")] := by
      intro k hk
      obtain ⟨h1, h2⟩ := hnamesex k hk
      rcases h2 with h2 | h2
      · exact List.mem_cons.mpr (Or.inl (Prod.ext_iff.mpr ⟨h1, h2⟩))
      · exact List.mem_cons.mpr (Or.inr (by
          exact List.mem_singleton.mpr (Prod.ext_iff.mpr ⟨h1, h2⟩)))
    calc (grouped_df_gender (filtered_df_gender_melted
            (List.insertionSort MeltLE (melt_long detail)) 2022 ["SCOTLAND"] "0-17")).length
        = (groupSortedKeys (filtered_df_gender_melted
            (List.insertionSort MeltLE (melt_long detail)) 2022 ["SCOTLAND"] "0-17")).length := by
          rw [grouped_df_gender_eq, List.length_map]
      _ ≤ 2 := by
          simpa using ((groupSortedKeys_nodup _).subperm hsub).length_le
  · intro g hg
    rw [grouped_df_gender_eq] at hg
    obtain ⟨k, hk, rfl⟩ := List.mem_map.mp hg
    obtain ⟨hk1, _⟩ := hnamesex k hk
    refine ⟨hk1, ?_⟩
    show (((filtered_df_gender_melted (List.insertionSort MeltLE (melt_long detail))
        2022 ["SCOTLAND"] "0-17").filter
        (fun r => decide (r.name = k.1 ∧ r.sex = k.2))).map (fun r => r.Population)).sum = _
    have hchain : ((filtered_df_gender_melted (List.insertionSort MeltLE (melt_long detail))
        2022 ["SCOTLAND"] "0-17").filter
        (fun r => decide (r.name = k.1 ∧ r.sex = k.2)))
        = (List.insertionSort MeltLE (melt_long detail)).filter
            (fun r => decide (r.Year = 2022) &&
              (decide (r.name = "SCOTLAND") && (decide (r.sex = k.2) &&
                decide (r.age_band = some "0-17")))) := by
      rw [hfrows, List.filter_filter, List.filter_filter]
      apply List.filter_congr
      intro r _
      by_cases h1 : r.Year = 2022 <;> by_cases h2 : r.name = "SCOTLAND" <;>
        by_cases h3 : r.sex = k.2 <;> by_cases h4 : r.age_band = some "0-17" <;>
        simp [h1, h2, h3, h4, hk1]
    rw [hchain]
    rw [sum_filter_sorted_melted detail
      (fun r => decide (r.Year = 2022) && (decide (r.name = "SCOTLAND") &&
        (decide (r.sex = k.2) && decide (r.age_band = some "0-17"))))]
    rw [sum_melt_long_filter_2022 detail _
      (fun d => decide (d.name = "SCOTLAND") && (decide (d.sex = k.2) &&
        decide (d.age_band = some "0-17"))) (fun d c v => rfl)]
    have hcong2 : detail.filter
        (fun d => decide (d.name = "SCOTLAND") && (decide (d.sex = k.2) &&
          decide (d.age_band = some "0-17")))
        = detail.filter (fun d => decide (d.name = "SCOTLAND" ∧ d.sex = k.2 ∧
            0 ≤ d.age_numeric ∧ d.age_numeric ≤ 17)) := by
      apply List.filter_congr
      intro d hd
      obtain ⟨r, _, hrd⟩ := detail_row_source hm hd
      have hband := (mkDetailRow_spec hrd).2.2.2.2.1
      have hiff : d.age_band = some "0-17" ↔ 0 ≤ d.age_numeric ∧ d.age_numeric ≤ 17 := by
        rw [hband]
        exact ageBandOf_eq_band0 d.age_numeric
      by_cases h2 : d.name = "SCOTLAND" <;> by_cases h3 : d.sex = k.2 <;>
        by_cases h4 : 0 ≤ d.age_numeric ∧ d.age_numeric ≤ 17 <;>
        simp [h2, h3, h4, hiff]
    rw [hcong2]

/-- C6 witness: the Scotland/0-17/2022 example evaluated on the sample table
(the single qualifying group row is (SCOTLAND, F), whose total 11 counts the
age-17 girls but not the 90+ women nor the age-18 men). -/
theorem band_specific_gender_comparison_witness :
    (∀ r ∈ sampleRaw, r.sex = "F" ∨ r.sex = "M") ∧
    (grouped_df_gender (filtered_df_gender_melted samplePre.2
      2022 ["SCOTLAND"] "0-17")).length ≤ 2 ∧
    (filtered_df_gender_melted samplePre.2 2022 ["SCOTLAND", "WALES"] "All Ages"
      = samplePre.2.filter
          (fun r => decide (r.Year = 2022 ∧ r.name ∈ (["SCOTLAND", "WALES"] : List String)))) :=
  ⟨by decide,
    (band_specific_gender_comparison sampleRaw samplePre.1 samplePre.2 (by decide) (by decide)
      2022 ["SCOTLAND"] "0-17").2.2.1,
    (band_specific_gender_comparison sampleRaw samplePre.1 samplePre.2 (by decide) (by decide)
      2022 ["SCOTLAND", "WALES"] "All Ages").2.1⟩

end ForStreamlit
